import Mathlib

/-!
# Path planning: the demonstration harness and the RRT* planner

A shallow embedding of `src/main/main.cpp` (the harness that draws a start and a
goal, frees their cells, snapshots the grid and runs every planner on a copy of
the snapshot) and of `src/include/path_planning/rrt_star.hpp` (the `RRTStar`
class: its constructor and its data members with their default initialisers).
The member functions that the header only declares are modelled from section 4.2
of the specification; each such definition says so.

C++ `int` values are `Int`; every product formed by the harness is below
`21 * 21`, far from the 32-bit limit, so no wrap-around is involved.
`double` fields hold values the harness only ever writes as small integers (or
the literals `1.5` and `2`), all exactly representable; they are `ℚ` here.
-/

namespace PathPlanning

/-! ## Data model -/

/-- Modelled from the spec: the `Node` record, declared in `utils/utils.hpp`, which is
not part of the sources at hand. The field names are the ones `main.cpp` uses
(`x_`, `y_`, `id_`, `pid_`, `h_cost_`); `cost_` is the spec's `cost`.
`Node(x, y, cost, h_cost, id, pid)` is the six-argument constructor called in `main`. -/
structure Node where
  x_ : Int
  y_ : Int
  cost_ : ℚ
  h_cost_ : ℚ
  id_ : Int
  pid_ : Int
deriving DecidableEq

/-- The grid, `std::vector<std::vector<int>>`: `0` is a free cell, `1` an obstacle. -/
abbrev Grid := List (List Int)

/-- Reading `grid[i][j]`; `none` is an out-of-bounds access. -/
def cellAt (grid : Grid) (i j : Int) : Option Int :=
  if i < 0 ∨ j < 0 then none
  else
    match grid[i.toNat]? with
    | none => none
    | some row => row[j.toNat]?

/-- The assignment `grid[i][j] = v`; `none` is an out-of-bounds access. -/
def assignCell (grid : Grid) (i j : Int) (v : Int) : Option Grid :=
  if i < 0 ∨ j < 0 then none
  else
    match grid[i.toNat]? with
    | none => none
    | some row =>
      if j.toNat < row.length then some (grid.set i.toNat (row.set j.toNat v)) else none

/-- A grid of `k` rows of `k` cells each. -/
def IsSquare (grid : Grid) (k : Nat) : Prop :=
  grid.length = k ∧ ∀ row ∈ grid, row.length = k

/-- The conversion `static_cast<int>(d)` of a `double`: truncation toward zero. -/
def static_cast_int (d : ℚ) : Int :=
  Int.tdiv d.num d.den

/-! ## The harness, `main` -/

/-- The harness constant `constexpr int n = 21`. -/
def n : Int := 21

/-- The harness constant `constexpr double threshold = 2`. -/
def threshold : ℚ := 2

/-- The harness constant `constexpr int max_iter_x_factor = 20`. -/
def max_iter_x_factor : Int := 20

/-- What `main` has built when it reaches the first planner: the two nodes and the
snapshot `main_grid` of the grid. -/
structure Setup where
  start : Node
  goal : Node
  main_grid : Grid
deriving DecidableEq

/-- The range of `distr`, `std::uniform_int_distribution<int>(0, n - 1)`. -/
def InRange (d : Int) : Prop := 0 ≤ d ∧ d ≤ n - 1

instance (d : Int) : Decidable (InRange d) := by
  unfold InRange; infer_instance

/-- Lines 29-35 of `main.cpp`: the start and the goal node. `d1 .. d4` are the four
values drawn from `distr`. -/
def mainNodes (d1 d2 d3 d4 : Int) : Node × Node :=
  let start : Node := ⟨d1, d2, 0, 0, 0, 0⟩
  let goal : Node := ⟨d3, d4, 0, 0, 0, 0⟩
  let start := { start with id_ := start.x_ * n + start.y_ }
  let start := { start with pid_ := start.x_ * n + start.y_ }
  let goal := { goal with id_ := goal.x_ * n + goal.y_ }
  let start :=
    { start with h_cost_ := ((|start.x_ - goal.x_| + |start.y_ - goal.y_| : Int) : ℚ) }
  (start, goal)

/-- Lines 29-44 of `main.cpp`. `grid` is the grid as `MakeGrid` left it. The two
assignments `grid[start.x_][start.y_] = 0` and `grid[goal.x_][goal.y_] = 0` are
followed by the copy `main_grid = grid`. -/
def mainSetup (grid : Grid) (d1 d2 d3 d4 : Int) : Option Setup :=
  let start := (mainNodes d1 d2 d3 d4).1
  let goal := (mainNodes d1 d2 d3 d4).2
  match assignCell grid start.x_ start.y_ 0 with
  | none => none
  | some grid1 =>
    match assignCell grid1 goal.x_ goal.y_ 0 with
    | none => none
    | some grid2 => some ⟨start, goal, grid2⟩

/-- The arguments one planner receives. -/
structure Call where
  grid : Grid
  start : Node
  goal : Node

/-- The planner entry point as `main` calls it: the grid is passed by reference, so the
planner may write into it; the nodes are passed by `const` reference. -/
abbrev PlanFn := Grid → Node → Node → Grid × List Node

/-- The rendering routine `PrintPath(path_vector, start, goal, grid)`, which marks the
path in the grid it is given. -/
abbrev PrintFn := List Node → Node → Node → Grid → Grid

/-- The planners and printing routines `main` calls. Their bodies are not part of the
sources at hand, so they are arbitrary here. -/
structure Algorithms where
  dijkstra : PlanFn
  a_star : PlanFn
  jump_point_search : PlanFn
  lpa_star : Grid → Node → Node → Int → Bool → Grid × List Node
  rrt : Grid → Node → Node → Int → ℚ → Grid × List Node
  rrt_star : Grid → Node → Node → Int → ℚ → Grid × List Node
  d_star_lite : PlanFn
  RunDStarLite : Grid → Grid
  ant_colony : PlanFn
  genetic_algorithm : Grid → Node → Node → Int → Grid × List Node
  PrintPath : PrintFn
  PrintPathInOrder : PrintFn

/-- The variables of `main` that change while the planners run, and the record of what
each planner was called with. -/
structure MainState where
  grid : Grid
  main_grid : Grid
  path_vector : List Node
  calls : List Call

/-- One block of `main`: `grid = main_grid; path_vector = plan(grid, start, goal);`
then `print(path_vector, start, goal, grid)`. -/
def runBlock (plan : PlanFn) (print : PrintFn) (start goal : Node) (st : MainState) :
    MainState :=
  let grid := st.main_grid
  let call : Call := ⟨grid, start, goal⟩
  let r := plan grid start goal
  let grid := print r.2 start goal r.1
  { st with grid := grid, path_vector := r.2, calls := st.calls ++ [call] }

/-- The generation count `2 * static_cast<int>(start.h_cost_)` of line 168. -/
def generations (start : Node) : Int :=
  2 * static_cast_int start.h_cost_

/-- Lines 67-169 of `main.cpp`: the nine planner blocks in order. The result lists the
variables of `main` as they stand at the end of each block, right after its call to
`PrintPath` (or `PrintPathInOrder`). Between the blocks come `path_vector.clear()`
(line 99) and, when `DYNAMIC_ALGOS` is defined, `RunDStarLite()` (line 142), which
takes no grid argument; it is given the working grid to write into all the same. -/
def mainStates (A : Algorithms) (s : Setup) : List MainState :=
  let start := s.start
  let goal := s.goal
  let st0 : MainState := ⟨s.main_grid, s.main_grid, [], []⟩
  let st1 := runBlock A.dijkstra A.PrintPath start goal st0
  let st2 := runBlock A.a_star A.PrintPath start goal st1
  let st3 := runBlock A.jump_point_search A.PrintPath start goal st2
  let st4 := runBlock (fun g a b => A.lpa_star g a b n true) A.PrintPath start goal
    { st3 with path_vector := [] }
  let st5 := runBlock (fun g a b => A.rrt g a b max_iter_x_factor threshold) A.PrintPath
    start goal st4
  let st6 := runBlock (fun g a b => A.rrt_star g a b max_iter_x_factor threshold)
    A.PrintPath start goal st5
  let st7 := runBlock A.d_star_lite A.PrintPath start goal st6
  let st8 := runBlock A.ant_colony A.PrintPath start goal
    { st7 with grid := A.RunDStarLite st7.grid }
  let st9 := runBlock (fun g a b => A.genetic_algorithm g a b (generations start))
    A.PrintPathInOrder start goal st8
  [st1, st2, st3, st4, st5, st6, st7, st8, st9]

/-- The variables of `main` when it returns: the state at the end of the last block. -/
def mainRun (A : Algorithms) (s : Setup) : MainState :=
  (mainStates A s).getLastD ⟨s.main_grid, s.main_grid, [], []⟩

/-- What one block of `main` yields when its planner is handed the grid `snapshot`: the
path the planner returns on `snapshot`, and the grid as the planner and then the
printing routine leave it. -/
def blockOnSnapshot (plan : PlanFn) (print : PrintFn) (start goal : Node) (snapshot : Grid) :
    List Node × Grid :=
  let r := plan snapshot start goal
  (r.2, print r.2 start goal r.1)

/-! ## The `RRTStar` class -/

/-- The class `RRTStar` of `rrt_star.hpp`: the grid held by its base class `Planner` and
its own data members, in declaration order. The unordered containers are lists. -/
structure RRTStar where
  grid_ : Grid
  start : Node
  goal : Node
  point_list_ : List Node
  near_nodes_ : List (Node × List Node)
  obstacle_list_ : List Node
  threshold_ : ℚ
  max_iter_x_factor_ : Int

/-- The only constructor, `RRTStar(std::vector<std::vector<int>> grid)`: the grid goes to
`Planner`, the containers start empty, and `threshold_` and `max_iter_x_factor_` take
their default member initialisers `1.5` and `500`. The default value of a `Node` is
not in the sources at hand; the all-zero node stands for it and `Plan` never reads it. -/
def RRTStar.construct (grid : Grid) : RRTStar where
  grid_ := grid
  start := ⟨0, 0, 0, 0, 0, 0⟩
  goal := ⟨0, 0, 0, 0, 0, 0⟩
  point_list_ := []
  near_nodes_ := []
  obstacle_list_ := []
  threshold_ := 3 / 2
  max_iter_x_factor_ := 500

/-- Modelled from the spec: the iteration budget of `Plan`, whose body is not in the
sources at hand: "the planner runs up to `max_iter_x_factor × N × N` sampling
iterations", `N` being the side of the grid. -/
def RRTStar.iterationBudget (self : RRTStar) : Int :=
  self.max_iter_x_factor_ * self.grid_.length * self.grid_.length

/-- Modelled from the spec: the hash functor `NodeIdAsHash` of the point set, declared in
the absent `utils/utils.hpp`: a node is hashed by its `id`, converted to `size_t`. -/
def NodeIdAsHash (a : Node) : Nat :=
  (a.id_ % 2 ^ 64).toNat

/-- Modelled from the spec: the equality functor `compare_coordinates` of the point set,
declared in the absent `utils/utils.hpp`: two nodes are equal when their coordinates
match. -/
def compare_coordinates (a b : Node) : Bool :=
  a.x_ == b.x_ && a.y_ == b.y_

/-- A node whose identifier is the canonical one for an `N x N` grid. -/
def CanonicalId (N : Int) (a : Node) : Prop :=
  (0 ≤ a.x_ ∧ a.x_ < N) ∧ (0 ≤ a.y_ ∧ a.y_ < N) ∧ a.id_ = a.x_ * N + a.y_

/-! ## The RRT* algorithm

The bodies of `RRTStar::Plan` and of the private member functions are in
`rrt_star.cpp`, which is not part of the sources at hand. The definitions below
follow section 4.2 of the specification step by step. The Euclidean distance
(`dist`), the segment collision check (`IsAnyObstacleInPath`) and the random
generator (`rng`) are parameters: the theorems hold for every choice of them.
The neighbourhood cache `near_nodes_` is a performance aid that the specification
allows to omit; every step scans the whole tree instead.
-/

/-- The distance between two nodes, as the planner computes it. -/
abbrev DistFn := Node → Node → ℚ

/-- The collision check: the obstacle list and the two end points of a segment. -/
abbrev ObstacleFn := List Node → Node → Node → Bool

/-- Modelled from the spec: the error kinds of section 7 that end a call to `Plan`;
`NoPathFound` is not among them, it is the ordinary result `(false, [])`. -/
inductive PlanError where
  | InvalidInput
  | InternalInvariantViolation
deriving DecidableEq

/-- Modelled from the spec: a node at `(x, y)` of an `N x N` grid,
with `id = x * N + y`. -/
def cellNode (N x y : Int) : Node :=
  ⟨x, y, 0, 0, x * N + y, 0⟩

/-- Modelled from the spec: the obstacle cells of row `i`, from column `j` on. -/
def obstaclesInRow (N i : Int) : Int → List Int → List Node
  | _, [] => []
  | j, c :: cs =>
    if c = 1 then cellNode N i j :: obstaclesInRow N i (j + 1) cs
    else obstaclesInRow N i (j + 1) cs

/-- Modelled from the spec: the obstacle cells of the rows from row `i` on. -/
def obstaclesFrom (N : Int) : Int → Grid → List Node
  | _, [] => []
  | i, row :: rows => obstaclesInRow N i 0 row ++ obstaclesFrom N (i + 1) rows

/-- Modelled from the spec: `RRTStar::CreateObstacleList`, "extract obstacle positions"
from the grid (step 1). -/
def CreateObstacleList (grid : Grid) : List Node :=
  obstaclesFrom grid.length 0 grid

/-- Modelled from the spec: the tree as a mapping from `id` to node record (section 9):
the record stored under an identifier. -/
def findById (tree : List Node) (id : Int) : Option Node :=
  tree.find? (fun p => p.id_ == id)

/-- Modelled from the spec: `RRTStar::GenerateRandomNode`, "sample a uniformly random
cell within the grid" (step 2a); `rng i` is the raw output of the generator at
iteration `i`. -/
def GenerateRandomNode (N : Nat) (rng : Nat → Nat × Nat) (i : Nat) : Node :=
  cellNode N (((rng i).1 % N : Nat) : Int) (((rng i).2 % N : Nat) : Int)

/-- Modelled from the spec: `RRTStar::FindNearestPoint`, the tree node nearest to the
sample, rejected when it is farther than the threshold (step 2b). -/
def FindNearestPoint (dist : DistFn) (threshold : ℚ) (tree : List Node) (new_node : Node) :
    Option Node :=
  match tree with
  | [] => none
  | t :: ts =>
    let best := ts.foldl (fun b c => if dist c new_node < dist b new_node then c else b) t
    if threshold < dist best new_node then none else some best

/-- Modelled from the spec: whether `c` may be connected to `new_node`: within the
threshold and with an obstacle-free segment (steps 2d and 2f). -/
def connectable (dist : DistFn) (IsAnyObstacleInPath : ObstacleFn) (obstacles : List Node)
    (threshold : ℚ) (c new_node : Node) : Bool :=
  decide (dist c new_node ≤ threshold) && !IsAnyObstacleInPath obstacles c new_node

/-- Modelled from the spec: the better of two parent candidates for `new_node`: the one
with the smaller `cost + dist`, ties broken by the smaller `id` (step 2d). -/
def betterParent (dist : DistFn) (new_node b c : Node) : Node :=
  if c.cost_ + dist c new_node < b.cost_ + dist b new_node then c
  else if c.cost_ + dist c new_node = b.cost_ + dist b new_node ∧ c.id_ < b.id_ then c
  else b

/-- Modelled from the spec: choose-parent (step 2d): among the connectable tree nodes,
the one minimising `candidate.cost + dist(candidate, sample)`. -/
def chooseParent (dist : DistFn) (IsAnyObstacleInPath : ObstacleFn) (obstacles : List Node)
    (threshold : ℚ) (tree : List Node) (new_node : Node) : Option Node :=
  match tree.filter (fun c => connectable dist IsAnyObstacleInPath obstacles threshold c new_node)
  with
  | [] => none
  | c :: cs => some (cs.foldl (betterParent dist new_node) c)

/-- Modelled from the spec: "a node `c` is a descendant of `m` iff following `parent_id`
links from `c` reaches `m`" (step 2f); at most `fuel` links are followed. -/
def isDescendant (tree : List Node) (m_id : Int) : Nat → Node → Bool
  | 0, _ => false
  | fuel + 1, c =>
    if c.pid_ = m_id then true
    else
      match findById tree c.pid_ with
      | none => false
      | some p => isDescendant tree m_id fuel p

/-- Modelled from the spec: "propagate the cost delta to descendants of `m`"
(step 2f). -/
def propagateCost (tree : List Node) (m_id : Int) (delta : ℚ) : List Node :=
  tree.map (fun c =>
    if c.id_ ≠ m_id ∧ isDescendant tree m_id tree.length c = true then
      { c with cost_ := c.cost_ + delta }
    else c)

/-- Modelled from the spec: the rewiring of the tree node at position `k` (step 2f): "if
`sample.cost + dist(sample, m) < m.cost`, reparent `m` to `sample` and update
`m.cost`; propagate the cost delta to descendants of `m`". -/
def rewireAt (dist : DistFn) (IsAnyObstacleInPath : ObstacleFn) (obstacles : List Node)
    (threshold : ℚ) (new_node : Node) (tree : List Node) (k : Nat) : List Node :=
  match tree[k]? with
  | none => tree
  | some m =>
    if compare_coordinates m new_node = true then tree
    else if connectable dist IsAnyObstacleInPath obstacles threshold new_node m = true
        ∧ new_node.cost_ + dist new_node m < m.cost_ then
      let new_cost := new_node.cost_ + dist new_node m
      let delta := new_cost - m.cost_
      let tree1 := tree.set k { m with pid_ := new_node.id_, cost_ := new_cost }
      propagateCost tree1 m.id_ delta
    else tree

/-- Modelled from the spec: `RRTStar::Rewire(new_node)` (step 2f): every tree node is
considered in turn for reparenting to the newly inserted node. -/
def Rewire (dist : DistFn) (IsAnyObstacleInPath : ObstacleFn) (obstacles : List Node)
    (threshold : ℚ) (new_node : Node) (tree : List Node) : List Node :=
  (List.range tree.length).foldl
    (rewireAt dist IsAnyObstacleInPath obstacles threshold new_node) tree

/-- Modelled from the spec: `RRTStar::CheckGoalVisible` (step 2g): the goal is within the
threshold of the new node and the segment between them is obstacle-free. -/
def CheckGoalVisible (dist : DistFn) (IsAnyObstacleInPath : ObstacleFn)
    (obstacles : List Node) (threshold : ℚ) (goal new_node : Node) : Bool :=
  connectable dist IsAnyObstacleInPath obstacles threshold new_node goal

/-- Modelled from the spec: the walk of step 3 along `parent_id` links from `current`
back to the start, most recent node first. `none` when the start is not reached
within `fuel` links or a parent is missing from the tree. -/
def walkToStart (tree : List Node) (start : Node) : Nat → Node → Option (List Node)
  | 0, current => if compare_coordinates current start = true then some [current] else none
  | fuel + 1, current =>
    if compare_coordinates current start = true then some [current]
    else
      match findById tree current.pid_ with
      | none => none
      | some parent =>
        match walkToStart tree start fuel parent with
        | none => none
        | some rest => some (current :: rest)

/-- Modelled from the spec: `RRTStar::CreatePath` (step 3): "walking `parent_id` links
from `goal` back to `start` and reversing". -/
def CreatePath (tree : List Node) (start goal : Node) : Option (List Node) :=
  match walkToStart tree start tree.length goal with
  | none => none
  | some walked => some walked.reverse

/-- Modelled from the spec: the insertion of a node into the point set, a collection of
unique cells: a cell already present is kept as it is. -/
def insertPoint (tree : List Node) (a : Node) : List Node :=
  if tree.any (fun c => compare_coordinates c a) = true then tree else tree ++ [a]

/-- Modelled from the spec: the sampling loop of `Plan` (step 2), `fuel` iterations
left, `i` the number of the next sample. -/
def planLoop (dist : DistFn) (IsAnyObstacleInPath : ObstacleFn) (rng : Nat → Nat × Nat)
    (N : Nat) (obstacles : List Node) (threshold : ℚ) (start goal : Node) :
    Nat → Nat → List Node → Except PlanError (Bool × List Node)
  | 0, _, _ => .ok (false, [])
  | fuel + 1, i, tree =>
    let sample := GenerateRandomNode N rng i
    if tree.any (fun c => compare_coordinates c sample) = true then
      planLoop dist IsAnyObstacleInPath rng N obstacles threshold start goal fuel (i + 1) tree
    else
      match FindNearestPoint dist threshold tree sample with
      | none =>
        planLoop dist IsAnyObstacleInPath rng N obstacles threshold start goal fuel (i + 1) tree
      | some nearest =>
        if IsAnyObstacleInPath obstacles nearest sample = true then
          planLoop dist IsAnyObstacleInPath rng N obstacles threshold start goal fuel (i + 1)
            tree
        else
          match chooseParent dist IsAnyObstacleInPath obstacles threshold tree sample with
          | none =>
            planLoop dist IsAnyObstacleInPath rng N obstacles threshold start goal fuel
              (i + 1) tree
          | some parent =>
            let new_node : Node :=
              { sample with pid_ := parent.id_, cost_ := parent.cost_ + dist parent sample }
            let tree := insertPoint tree new_node
            let tree := Rewire dist IsAnyObstacleInPath obstacles threshold new_node tree
            if CheckGoalVisible dist IsAnyObstacleInPath obstacles threshold goal new_node
                = true then
              let goal : Node :=
                { goal with pid_ := new_node.id_,
                            cost_ := new_node.cost_ + dist new_node goal }
              match CreatePath (insertPoint tree goal) start goal with
              | none => .error .InternalInvariantViolation
              | some path => .ok (true, path)
            else
              planLoop dist IsAnyObstacleInPath rng N obstacles threshold start goal fuel
                (i + 1) tree

/-- Modelled from the spec: `RRTStar::Plan(start, goal)` (section 4.2). Invalid input
(start or goal outside the grid or not free) is reported at once; the tree is
seeded with the start as its own parent at cost `0`; the loop runs for the
iteration budget. -/
def RRTStar.Plan (dist : DistFn) (IsAnyObstacleInPath : ObstacleFn) (rng : Nat → Nat × Nat)
    (self : RRTStar) (start_in goal_in : Node) : Except PlanError (Bool × List Node) :=
  if cellAt self.grid_ start_in.x_ start_in.y_ = some 0
      ∧ cellAt self.grid_ goal_in.x_ goal_in.y_ = some 0 then
    let obstacles := CreateObstacleList self.grid_
    let start : Node := { start_in with pid_ := start_in.id_, cost_ := 0 }
    planLoop dist IsAnyObstacleInPath rng self.grid_.length obstacles self.threshold_ start
      goal_in self.iterationBudget.toNat 0 [start]
  else .error .InvalidInput

/-- A 21 x 21 grid with some obstacles, used to run the harness on a concrete input. -/
def sampleGrid : Grid :=
  List.replicate 21 ([1, 0, 1] ++ List.replicate 18 0)

/-- A planner that looks at the grid it is given: it returns the path `[start, goal]`
when both cells are free in that grid and no path otherwise, and leaves every cell
of the grid blocked. -/
def sensingPlanner : PlanFn := fun g a b =>
  (g.map (fun row => row.map (fun _ => 1)),
   if cellAt g a.x_ a.y_ = some 0 ∧ cellAt g b.x_ b.y_ = some 0 then [a, b] else [])

/-- Planners whose result depends on the grid they are given, and printing routines
that overwrite every cell of the grid with the path mark `3`. -/
def sampleAlgorithms : Algorithms where
  dijkstra := sensingPlanner
  a_star := sensingPlanner
  jump_point_search := sensingPlanner
  lpa_star := fun g a b _ _ => sensingPlanner g a b
  rrt := fun g a b _ _ => sensingPlanner g a b
  rrt_star := fun g a b _ _ => sensingPlanner g a b
  d_star_lite := sensingPlanner
  RunDStarLite := fun g => g.map (fun row => row.map (fun _ => 4))
  ant_colony := sensingPlanner
  genetic_algorithm := fun g a b _ => sensingPlanner g a b
  PrintPath := fun _ _ _ g => g.map (fun row => row.map (fun _ => 3))
  PrintPathInOrder := fun _ _ _ g => g.map (fun row => row.map (fun _ => 3))

/-- The set-up the harness reaches on `sampleGrid` when it draws start `(3, 20)`, a free
cell, and goal `(4, 0)`, an obstacle cell of `sampleGrid`: the identifiers are
`3 * 21 + 20 = 83` and `4 * 21 + 0 = 84`, the heuristic is `1 + 20 = 21`. -/
def sampleSetup : Setup where
  start := ⟨3, 20, 0, 21, 83, 83⟩
  goal := ⟨4, 0, 0, 0, 84, 0⟩
  main_grid :=
    List.replicate 4 ([1, 0, 1] ++ List.replicate 18 0)
      ++ [[0, 0, 1] ++ List.replicate 18 0]
      ++ List.replicate 16 ([1, 0, 1] ++ List.replicate 18 0)

/-- What a call `Rewire(new_node)` may do to one tree node, `old` before the call and
`new` after it: the node stays the same cell; if its parent changed, the new parent
is `new_node` and its cost went strictly down; if its parent did not change, its
cost did not go up. -/
def RewireEffect (new_node old new : Node) : Prop :=
  (new.id_ = old.id_ ∧ new.x_ = old.x_ ∧ new.y_ = old.y_) ∧
  (new.pid_ ≠ old.pid_ → new.pid_ = new_node.id_ ∧ new.cost_ < old.cost_) ∧
  (new.pid_ = old.pid_ → new.cost_ ≤ old.cost_)

/-! ## A concrete planning problem -/

/-- Newton iteration for the integer square root of `m`, from the estimate `x`. -/
def isqrtAux (m : Nat) : Nat → Nat → Nat
  | 0, x => x
  | fuel + 1, x =>
    let y := (x + m / x) / 2
    if y < x then isqrtAux m fuel y else x

/-- The integer square root of `m`. -/
def isqrt (m : Nat) : Nat :=
  if m = 0 then 0 else isqrtAux m m m

/-- The Euclidean distance `√((Δx)² + (Δy)²)` rounded down to three decimals. -/
def sampleDist : DistFn := fun a b =>
  (isqrt (((a.x_ - b.x_) ^ 2 + (a.y_ - b.y_) ^ 2).toNat * 1000000) : ℚ) / 1000

/-- Modelled from the spec: the rasterisation of section 4.3: the segment is stepped in
`2 * max(|Δx|, |Δy|)` increments and each rounded cell, end points included, is
looked up in the obstacle list. -/
def sampleObstacleCheck : ObstacleFn := fun obstacles a b =>
  let dx := b.x_ - a.x_
  let dy := b.y_ - a.y_
  let steps : Int := 2 * max (max |dx| |dy|) 1
  (List.range (steps.toNat + 1)).any (fun t =>
    let cx := (2 * steps * a.x_ + 2 * dx * t + steps) / (2 * steps)
    let cy := (2 * steps * a.y_ + 2 * dy * t + steps) / (2 * steps)
    obstacles.any (fun o => o.x_ == cx && o.y_ == cy))

/-- A 5 x 5 grid with a wall of three obstacles in row 1. -/
def wallGrid : Grid :=
  [[0, 0, 0, 0, 0], [0, 1, 1, 1, 0], [0, 0, 0, 0, 0], [0, 0, 0, 0, 0], [0, 0, 0, 0, 0]]

/-- A fixed sequence of samples for `wallGrid`. -/
def wallSamples : Nat → Nat × Nat
  | 0 => (4, 4)
  | 1 => (1, 0)
  | 2 => (1, 1)
  | 3 => (2, 1)
  | 4 => (2, 0)
  | 5 => (2, 2)
  | 6 => (2, 3)
  | 7 => (1, 4)
  | _ => (0, 0)

/-- The path `Plan` returns on `wallGrid` from `(0, 0)` to `(0, 4)` with `wallSamples`. -/
def wallPath : List Node :=
  [⟨0, 0, 0, 0, 0, 0⟩, ⟨1, 0, 1, 0, 5, 0⟩, ⟨2, 1, 1207 / 500, 0, 11, 5⟩,
   ⟨2, 2, 1707 / 500, 0, 12, 11⟩, ⟨2, 3, 2207 / 500, 0, 13, 12⟩,
   ⟨1, 4, 1457 / 250, 0, 9, 13⟩, ⟨0, 4, 1707 / 250, 0, 4, 9⟩]

/-- A tree in which `(1, 2)` hangs below `(0, 2)` and has the child `(2, 3)`; its last
node `(1, 1)` is the one just inserted. -/
def detourTree : List Node :=
  [⟨0, 0, 0, 0, 0, 0⟩, ⟨0, 1, 1, 0, 1, 0⟩, ⟨0, 2, 2, 0, 2, 1⟩, ⟨1, 2, 3, 0, 7, 2⟩,
   ⟨2, 3, 2207 / 500, 0, 13, 7⟩, ⟨1, 1, 707 / 500, 0, 6, 0⟩]

deriving instance DecidableEq for Except

/-! ## Theorems: the harness -/

theorem assignCell_isSome (grid : Grid) (k : Nat) (hg : IsSquare grid k) (i j v : Int)
    (hi : 0 ≤ i ∧ i < k) (hj : 0 ≤ j ∧ j < k) :
    ∃ g, assignCell grid i j v = some g ∧ IsSquare g k := by
  obtain ⟨hlen, hrows⟩ := hg
  have hi2 : i.toNat < grid.length := by omega
  have hrow : grid[i.toNat]? = some grid[i.toNat] := List.getElem?_eq_getElem hi2
  have hrl : (grid[i.toNat]).length = k := hrows _ (List.getElem_mem _)
  have hj2 : j.toNat < (grid[i.toNat]).length := by omega
  refine ⟨grid.set i.toNat ((grid[i.toNat]).set j.toNat v), ?_, ?_, ?_⟩
  · unfold assignCell
    rw [if_neg (by omega), hrow]
    simp only [hj2, if_true]
  · simpa using hlen
  · intro row hrow2
    rcases List.mem_or_eq_of_mem_set hrow2 with h | h
    · exact hrows _ h
    · subst h; simpa using hrl

theorem cellAt_assignCell (grid g : Grid) (i j v : Int) (h : assignCell grid i j v = some g)
    (a b : Int) :
    cellAt g a b = if a = i ∧ b = j then some v else cellAt grid a b := by
  unfold assignCell at h
  split at h
  · exact absurd h (by simp)
  · rename_i hneg
    split at h
    · exact absurd h (by simp)
    · rename_i row hrow
      split at h
      · rename_i hj
        have hg : g = grid.set i.toNat (row.set j.toNat v) := by
          simpa using h.symm
        have hi : i.toNat < grid.length := by
          by_contra hc
          rw [List.getElem?_eq_none (by omega)] at hrow
          exact absurd hrow (by simp)
        subst hg
        unfold cellAt
        by_cases hab : a < 0 ∨ b < 0
        · rw [if_pos hab, if_pos hab]
          rw [if_neg]
          rintro ⟨rfl, rfl⟩
          exact hneg hab
        · rw [if_neg hab, if_neg hab]
          by_cases hai : a = i
          · subst hai
            rw [List.getElem?_set_self hi, hrow]
            by_cases hbj : b = j
            · subst hbj
              simp [List.getElem?_set_self hj]
            · have : j.toNat ≠ b.toNat := by omega
              simp [hbj, List.getElem?_set_ne this]
          · have : i.toNat ≠ a.toNat := by omega
            rw [List.getElem?_set_ne this]
            simp [hai]
      · exact absurd h (by simp)

theorem runBlock_calls (plan : PlanFn) (print : PrintFn) (start goal : Node) (st : MainState) :
    (runBlock plan print start goal st).calls = st.calls ++ [⟨st.main_grid, start, goal⟩] ∧
    (runBlock plan print start goal st).main_grid = st.main_grid :=
  ⟨rfl, rfl⟩

theorem mainRun_calls (A : Algorithms) (s : Setup) :
    (mainRun A s).calls = List.replicate 9 (⟨s.main_grid, s.start, s.goal⟩ : Call) ∧
    (mainRun A s).main_grid = s.main_grid :=
  ⟨rfl, rfl⟩

theorem mainSetup_nodes (grid : Grid) (d1 d2 d3 d4 : Int) (s : Setup)
    (h : mainSetup grid d1 d2 d3 d4 = some s) :
    s.start = (mainNodes d1 d2 d3 d4).1 ∧ s.goal = (mainNodes d1 d2 d3 d4).2 := by
  simp only [mainSetup] at h
  split at h
  · exact absurd h (by simp)
  · split at h
    · exact absurd h (by simp)
    · obtain rfl : _ = s := by simpa using h
      exact ⟨rfl, rfl⟩

/-- C1: for draws in the harness range, the start and goal identifiers are
`x * n + y` with `n = 21`, lie in `[0, n * n)`, and two cells get the same identifier
exactly when they are the same cell. -/
theorem harness_id_unique (x y x' y' : Int) (hx : InRange x) (hy : InRange y)
    (hx' : InRange x') (hy' : InRange y') :
    n = 21 ∧
    (mainNodes x y x' y').1.id_ = x * n + y ∧
    (mainNodes x y x' y').2.id_ = x' * n + y' ∧
    (0 ≤ (mainNodes x y x' y').1.id_ ∧ (mainNodes x y x' y').1.id_ < n * n) ∧
    (0 ≤ (mainNodes x y x' y').2.id_ ∧ (mainNodes x y x' y').2.id_ < n * n) ∧
    ((mainNodes x y x' y').1.id_ = (mainNodes x y x' y').2.id_ ↔ x = x' ∧ y = y') := by
  unfold InRange n at *
  simp only [mainNodes, n]
  refine ⟨trivial, trivial, trivial, ⟨by omega, by omega⟩, ⟨by omega, by omega⟩, ?_⟩
  constructor
  · intro h; constructor <;> omega
  · rintro ⟨rfl, rfl⟩; rfl

theorem harness_id_unique_witness :
    (mainNodes 3 20 4 0).1.id_ = 3 * n + 20 ∧
    (mainNodes 3 20 4 0).2.id_ = 4 * n + 0 ∧
    ((mainNodes 3 20 4 0).1.id_ = (mainNodes 3 20 4 0).2.id_ ↔ (3 : Int) = 4 ∧ (20 : Int) = 0) :=
  have h := harness_id_unique 3 20 4 0 (by decide) (by decide) (by decide) (by decide)
  ⟨h.2.1, h.2.2.1, h.2.2.2.2.2⟩

theorem sampleGrid_isSquare : IsSquare sampleGrid n.toNat := by
  constructor
  · rfl
  · intro row hrow
    have : row = [1, 0, 1] ++ List.replicate 18 0 := List.eq_of_mem_replicate hrow
    subst this
    rfl

theorem mainSetup_sample : mainSetup sampleGrid 3 20 4 0 = some sampleSetup := by
  decide!

/-- C2: on an `n x n` grid with all four draws in the harness range, both set-up
assignments are in bounds, afterwards the start and goal cells hold `0` and every
other cell is unchanged (also when start and goal coincide), and every planner is
called with a grid in which the start and goal cells are inside and free. -/
theorem setup_frees_start_and_goal (grid : Grid) (d1 d2 d3 d4 : Int)
    (hg : IsSquare grid n.toNat) (h1 : InRange d1) (h2 : InRange d2) (h3 : InRange d3)
    (h4 : InRange d4) :
    ∃ s, mainSetup grid d1 d2 d3 d4 = some s ∧
      IsSquare s.main_grid n.toNat ∧
      (s.start.x_ = d1 ∧ s.start.y_ = d2 ∧ s.goal.x_ = d3 ∧ s.goal.y_ = d4) ∧
      cellAt s.main_grid d1 d2 = some 0 ∧
      cellAt s.main_grid d3 d4 = some 0 ∧
      (∀ i j : Int, ¬ (i = d1 ∧ j = d2) → ¬ (i = d3 ∧ j = d4) →
        cellAt s.main_grid i j = cellAt grid i j) ∧
      ∀ A : Algorithms,
        (mainRun A s).calls.map (fun c => cellAt c.grid c.start.x_ c.start.y_)
          = List.replicate 9 (some 0) ∧
        (mainRun A s).calls.map (fun c => cellAt c.grid c.goal.x_ c.goal.y_)
          = List.replicate 9 (some 0) := by
  have hn : ((n.toNat : Nat) : Int) = 21 := rfl
  unfold InRange at h1 h2 h3 h4
  have hn2 : n = 21 := rfl
  obtain ⟨g1, hg1, hsq1⟩ := assignCell_isSome grid n.toNat hg d1 d2 0 (by omega) (by omega)
  obtain ⟨g2, hg2, hsq2⟩ := assignCell_isSome g1 n.toNat hsq1 d3 d4 0 (by omega) (by omega)
  have hs : mainSetup grid d1 d2 d3 d4 = some ⟨(mainNodes d1 d2 d3 d4).1,
      (mainNodes d1 d2 d3 d4).2, g2⟩ := by
    simp only [mainSetup]
    have e1 : (mainNodes d1 d2 d3 d4).1.x_ = d1 := rfl
    have e2 : (mainNodes d1 d2 d3 d4).1.y_ = d2 := rfl
    have e3 : (mainNodes d1 d2 d3 d4).2.x_ = d3 := rfl
    have e4 : (mainNodes d1 d2 d3 d4).2.y_ = d4 := rfl
    rw [e1, e2, e3, e4, hg1]
    simp only [hg2]
  have c1 := cellAt_assignCell grid g1 d1 d2 0 hg1
  have c2 := cellAt_assignCell g1 g2 d3 d4 0 hg2
  have hstart : cellAt g2 d1 d2 = some 0 := by
    rw [c2, c1]; simp
  have hgoal : cellAt g2 d3 d4 = some 0 := by
    rw [c2]; simp
  refine ⟨_, hs, hsq2, ⟨rfl, rfl, rfl, rfl⟩, hstart, hgoal, ?_, ?_⟩
  · intro i j hne1 hne2
    show cellAt g2 i j = cellAt grid i j
    rw [c2, if_neg hne2, c1, if_neg hne1]
  · intro A
    rw [(mainRun_calls A _).1]
    simp only [List.map_replicate]
    exact ⟨congrArg _ hstart, congrArg _ hgoal⟩

theorem setup_frees_start_and_goal_witness :
    (∃ s, mainSetup sampleGrid 5 0 5 0 = some s ∧ cellAt s.main_grid 5 0 = some 0 ∧
      (mainRun sampleAlgorithms s).calls.map (fun c => cellAt c.grid c.goal.x_ c.goal.y_)
        = List.replicate 9 (some 0)) ∧
    (cellAt sampleGrid 0 0 = some 1 ∧ cellAt sampleGrid 0 2 = some 1 ∧
      cellAt sampleGrid 7 2 = some 1 ∧
      ∃ s, mainSetup sampleGrid 0 0 0 2 = some s ∧
        cellAt s.main_grid 0 0 = some 0 ∧ cellAt s.main_grid 0 2 = some 0 ∧
        cellAt s.main_grid 7 2 = cellAt sampleGrid 7 2 ∧
        (mainRun sampleAlgorithms s).calls.map (fun c => cellAt c.grid c.start.x_ c.start.y_)
          = List.replicate 9 (some 0)) := by
  obtain ⟨s, h1, _, _, h2, _, _, h3⟩ :=
    setup_frees_start_and_goal sampleGrid 5 0 5 0 sampleGrid_isSquare
      (by decide) (by decide) (by decide) (by decide)
  obtain ⟨t, k1, _, _, k2, k3, k4, k5⟩ :=
    setup_frees_start_and_goal sampleGrid 0 0 0 2 sampleGrid_isSquare
      (by decide) (by decide) (by decide) (by decide)
  exact ⟨⟨s, h1, h2, (h3 sampleAlgorithms).2⟩, by decide, by decide, by decide,
    ⟨t, k1, k2, k3, k4 7 2 (by decide) (by decide), (k5 sampleAlgorithms).1⟩⟩

/-- C3: the start node every planner is called with is the one the harness built; its
`pid_` equals its `id_`, both are `x * n + y` for the drawn position, and its cost
is `0`. -/
theorem start_is_tree_root (A : Algorithms) (grid : Grid) (d1 d2 d3 d4 : Int) (s : Setup)
    (h : mainSetup grid d1 d2 d3 d4 = some s) :
    (mainRun A s).calls.map Call.start = List.replicate 9 s.start ∧
    (s.start.x_ = d1 ∧ s.start.y_ = d2) ∧
    s.start.id_ = d1 * n + d2 ∧
    s.start.pid_ = s.start.id_ ∧
    s.start.cost_ = 0 := by
  obtain ⟨hs, _⟩ := mainSetup_nodes grid d1 d2 d3 d4 s h
  refine ⟨?_, ?_⟩
  · rw [(mainRun_calls A s).1]; simp
  · rw [hs]
    exact ⟨⟨rfl, rfl⟩, rfl, rfl, rfl⟩

theorem start_is_tree_root_witness :
    mainSetup sampleGrid 3 20 4 0 = some sampleSetup ∧
    (mainRun sampleAlgorithms sampleSetup).calls.map Call.start
      = List.replicate 9 sampleSetup.start ∧
    (sampleSetup.start.x_ = 3 ∧ sampleSetup.start.y_ = 20) ∧
    sampleSetup.start.id_ = 3 * n + 20 ∧
    sampleSetup.start.pid_ = sampleSetup.start.id_ ∧
    sampleSetup.start.cost_ = 0 ∧
    sampleSetup.start.id_ = 83 ∧ sampleSetup.start.pid_ = 83 :=
  have h := start_is_tree_root sampleAlgorithms sampleGrid 3 20 4 0 sampleSetup mainSetup_sample
  ⟨mainSetup_sample, h.1, h.2.1, h.2.2.1, h.2.2.2.1, h.2.2.2.2, rfl, rfl⟩

theorem static_cast_int_intCast (k : Int) : static_cast_int (k : ℚ) = k := by
  simp [static_cast_int]

/-- C9: the heuristic stored on the start node is the Manhattan distance between start
and goal; it is non-negative and zero exactly when the two cells coincide; the cast
back to `int` returns the same value, so the generation count is twice the Manhattan
distance, an even number between `0` and `4 * (n - 1)`. -/
theorem heuristic_is_manhattan (d1 d2 d3 d4 : Int) (h1 : InRange d1) (h2 : InRange d2)
    (h3 : InRange d3) (h4 : InRange d4) :
    (mainNodes d1 d2 d3 d4).1.h_cost_ = ((|d1 - d3| + |d2 - d4| : Int) : ℚ) ∧
    0 ≤ (mainNodes d1 d2 d3 d4).1.h_cost_ ∧
    ((mainNodes d1 d2 d3 d4).1.h_cost_ = 0 ↔ d1 = d3 ∧ d2 = d4) ∧
    ((static_cast_int (mainNodes d1 d2 d3 d4).1.h_cost_ : Int) : ℚ)
      = (mainNodes d1 d2 d3 d4).1.h_cost_ ∧
    generations (mainNodes d1 d2 d3 d4).1 = 2 * (|d1 - d3| + |d2 - d4|) ∧
    Even (generations (mainNodes d1 d2 d3 d4).1) ∧
    0 ≤ generations (mainNodes d1 d2 d3 d4).1 ∧
    generations (mainNodes d1 d2 d3 d4).1 ≤ 4 * (n - 1) := by
  have hh : (mainNodes d1 d2 d3 d4).1.h_cost_ = ((|d1 - d3| + |d2 - d4| : Int) : ℚ) := rfl
  have ha := abs_nonneg (d1 - d3)
  have hb := abs_nonneg (d2 - d4)
  have hgen : generations (mainNodes d1 d2 d3 d4).1 = 2 * (|d1 - d3| + |d2 - d4|) := by
    unfold generations
    rw [hh, static_cast_int_intCast]
  unfold InRange at h1 h2 h3 h4
  have hn : n = 21 := rfl
  have ua : |d1 - d3| ≤ 20 := abs_le.mpr ⟨by omega, by omega⟩
  have ub : |d2 - d4| ≤ 20 := abs_le.mpr ⟨by omega, by omega⟩
  refine ⟨hh, ?_, ?_, ?_, hgen, ?_, ?_, ?_⟩
  · rw [hh]; exact_mod_cast add_nonneg ha hb
  · rw [hh]
    constructor
    · intro h0
      have h0i : |d1 - d3| + |d2 - d4| = 0 := by exact_mod_cast h0
      have e1 : |d1 - d3| = 0 := by omega
      have e2 : |d2 - d4| = 0 := by omega
      rw [abs_eq_zero] at e1 e2
      constructor <;> omega
    · rintro ⟨rfl, rfl⟩
      simp
  · rw [hh, static_cast_int_intCast]
  · rw [hgen]; exact even_two_mul _
  · rw [hgen]; omega
  · rw [hgen, hn]; omega

theorem heuristic_is_manhattan_witness :
    (mainNodes 20 0 0 20).1.h_cost_ = ((|(20 : Int) - 0| + |(0 : Int) - 20| : Int) : ℚ) ∧
    generations (mainNodes 20 0 0 20).1 = 2 * (|(20 : Int) - 0| + |(0 : Int) - 20|) ∧
    generations (mainNodes 20 0 0 20).1 ≤ 4 * (n - 1) :=
  have h := heuristic_is_manhattan 20 0 0 20 (by decide) (by decide) (by decide) (by decide)
  ⟨h.1, h.2.2.2.2.1, h.2.2.2.2.2.2.2⟩

theorem working_grid_is_overwritten :
    (mainRun sampleAlgorithms sampleSetup).grid ≠ sampleSetup.main_grid := by
  decide

theorem runBlock_on_snapshot (plan : PlanFn) (print : PrintFn) (start goal : Node)
    (st : MainState) :
    ((runBlock plan print start goal st).path_vector, (runBlock plan print start goal st).grid)
      = blockOnSnapshot plan print start goal st.main_grid ∧
    (runBlock plan print start goal st).main_grid = st.main_grid ∧
    (runBlock plan print start goal st).calls = st.calls ++ [⟨st.main_grid, start, goal⟩] :=
  ⟨rfl, rfl, rfl⟩

/-- C10: each of the nine planners is applied to the snapshot `main_grid`: at the end
of every block the path and the working grid are what the block's planner and
printing routine produce from the snapshot, whatever the blocks before it (or
`RunDStarLite`) wrote into the working grid; one block started from any state, however
dirty its working grid, applies its planner to that state's snapshot and leaves the
snapshot as it was; the snapshot is the same after every block and at the end of the
run. -/
theorem planners_receive_snapshot (A : Algorithms) (s : Setup) :
    (mainRun A s).calls.map Call.grid = List.replicate 9 s.main_grid ∧
    (mainRun A s).main_grid = s.main_grid ∧
    (mainStates A s).map (fun st => (st.path_vector, st.grid)) =
      [blockOnSnapshot A.dijkstra A.PrintPath s.start s.goal s.main_grid,
       blockOnSnapshot A.a_star A.PrintPath s.start s.goal s.main_grid,
       blockOnSnapshot A.jump_point_search A.PrintPath s.start s.goal s.main_grid,
       blockOnSnapshot (fun g a b => A.lpa_star g a b n true) A.PrintPath s.start s.goal
         s.main_grid,
       blockOnSnapshot (fun g a b => A.rrt g a b max_iter_x_factor threshold) A.PrintPath
         s.start s.goal s.main_grid,
       blockOnSnapshot (fun g a b => A.rrt_star g a b max_iter_x_factor threshold)
         A.PrintPath s.start s.goal s.main_grid,
       blockOnSnapshot A.d_star_lite A.PrintPath s.start s.goal s.main_grid,
       blockOnSnapshot A.ant_colony A.PrintPath s.start s.goal s.main_grid,
       blockOnSnapshot (fun g a b => A.genetic_algorithm g a b (generations s.start))
         A.PrintPathInOrder s.start s.goal s.main_grid] ∧
    (mainStates A s).map MainState.main_grid = List.replicate 9 s.main_grid ∧
    ∀ (plan : PlanFn) (print : PrintFn) (st : MainState),
      ((runBlock plan print s.start s.goal st).path_vector,
        (runBlock plan print s.start s.goal st).grid)
        = blockOnSnapshot plan print s.start s.goal st.main_grid ∧
      (runBlock plan print s.start s.goal st).main_grid = st.main_grid ∧
      (runBlock plan print s.start s.goal st).calls
        = st.calls ++ [⟨st.main_grid, s.start, s.goal⟩] := by
  refine ⟨?_, (mainRun_calls A s).2, ?_, ?_, ?_⟩
  · rw [(mainRun_calls A s).1]; simp
  · simp only [mainStates, List.map_cons, List.map_nil, runBlock_on_snapshot,
      (runBlock_on_snapshot _ _ _ _ _).2.1]
  · simp only [mainStates, List.map_cons, List.map_nil, (runBlock_on_snapshot _ _ _ _ _).2.1]
    rfl
  · intro plan print st
    exact runBlock_on_snapshot plan print s.start s.goal st

theorem planners_receive_snapshot_witness :
    (mainStates sampleAlgorithms sampleSetup).map (fun st => (st.path_vector, st.grid)) =
      List.replicate 9 ([sampleSetup.start, sampleSetup.goal],
        List.replicate 21 (List.replicate 21 3)) ∧
    sensingPlanner (List.replicate 21 (List.replicate 21 3)) sampleSetup.start sampleSetup.goal
      = (List.replicate 21 (List.replicate 21 1), []) := by
  refine ⟨?_, by decide!⟩
  rw [(planners_receive_snapshot sampleAlgorithms sampleSetup).2.2.1]
  decide!

/-! ## Theorems: the `RRTStar` class -/

theorem plan_wall : (RRTStar.construct wallGrid).Plan sampleDist sampleObstacleCheck
    wallSamples (cellNode 5 0 0) (cellNode 5 0 4) = .ok (true, wallPath) := by
  decide!

/-- C4: a planner constructed from any grid has `threshold_ = 1.5` and
`max_iter_x_factor_ = 500`, so on an `N x N` grid its iteration budget is
`500 * N * N`. -/
theorem construct_defaults (grid : Grid) :
    (RRTStar.construct grid).threshold_ = 3 / 2 ∧
    (RRTStar.construct grid).max_iter_x_factor_ = 500 ∧
    (RRTStar.construct grid).grid_ = grid ∧
    ∀ N : Nat, IsSquare grid N →
      (RRTStar.construct grid).iterationBudget = 500 * (N : Int) * (N : Int) := by
  refine ⟨rfl, rfl, rfl, ?_⟩
  intro N hN
  unfold RRTStar.iterationBudget
  show (500 : Int) * (grid.length : Int) * (grid.length : Int) = _
  rw [hN.1]

/-- C5 (fails on the code): no planner built by the only constructor has the threshold
`2` and the iteration factor `20` that the harness wants to use; whatever the grid,
the constructed values are `1.5` and `500`. -/
theorem construct_cannot_configure :
    ¬ ∃ grid : Grid, (RRTStar.construct grid).threshold_ = threshold ∧
      (RRTStar.construct grid).max_iter_x_factor_ = max_iter_x_factor := by
  rintro ⟨grid, _, h⟩
  have h500 : (RRTStar.construct grid).max_iter_x_factor_ = 500 := rfl
  rw [h500] at h
  exact absurd h (by decide)

theorem compare_coordinates_iff (a b : Node) :
    compare_coordinates a b = true ↔ a.x_ = b.x_ ∧ a.y_ = b.y_ := by
  simp [compare_coordinates]

/-- C6: in the point set two nodes are the same element exactly when their coordinates
match, whatever their cost, heuristic and parent; for nodes with canonical
identifiers on an `N x N` grid this is the same as having equal `id`, so nodes that
compare equal have equal hashes. -/
theorem point_set_equality (N : Int) (a b : Node) (ha : CanonicalId N a)
    (hb : CanonicalId N b) :
    (compare_coordinates a b = true ↔ a.x_ = b.x_ ∧ a.y_ = b.y_) ∧
    (∀ (c h : ℚ) (p : Int) (c' h' : ℚ) (p' : Int),
      compare_coordinates { a with cost_ := c, h_cost_ := h, pid_ := p }
        { b with cost_ := c', h_cost_ := h', pid_ := p' } = compare_coordinates a b) ∧
    (compare_coordinates a b = true ↔ a.id_ = b.id_) ∧
    (compare_coordinates a b = true → NodeIdAsHash a = NodeIdAsHash b) := by
  obtain ⟨⟨hax0, hax1⟩, ⟨hay0, hay1⟩, haid⟩ := ha
  obtain ⟨⟨hbx0, hbx1⟩, ⟨hby0, hby1⟩, hbid⟩ := hb
  have hid : compare_coordinates a b = true ↔ a.id_ = b.id_ := by
    rw [compare_coordinates_iff, haid, hbid]
    constructor
    · rintro ⟨h1, h2⟩; rw [h1, h2]
    · intro h
      have hx : a.x_ = b.x_ := by
        rcases lt_trichotomy a.x_ b.x_ with hlt | heq | hgt
        · exfalso
          have : (a.x_ + 1) * N ≤ b.x_ * N := Int.mul_le_mul_of_nonneg_right (by omega) (by omega)
          nlinarith
        · exact heq
        · exfalso
          have : (b.x_ + 1) * N ≤ a.x_ * N := Int.mul_le_mul_of_nonneg_right (by omega) (by omega)
          nlinarith
      refine ⟨hx, ?_⟩
      rw [hx] at h
      omega
  refine ⟨compare_coordinates_iff a b, ?_, hid, ?_⟩
  · intro c h p c' h' p'
    rfl
  · intro h
    unfold NodeIdAsHash
    rw [hid.mp h]

theorem point_set_equality_witness :
    CanonicalId 21 ⟨3, 4, 0, 7, 67, 67⟩ ∧ CanonicalId 21 ⟨3, 4, 5 / 2, 0, 67, 46⟩ ∧
    compare_coordinates ⟨3, 4, 0, 7, 67, 67⟩ ⟨3, 4, 5 / 2, 0, 67, 46⟩ = true ∧
    NodeIdAsHash ⟨3, 4, 0, 7, 67, 67⟩ = NodeIdAsHash ⟨3, 4, 5 / 2, 0, 67, 46⟩ :=
  have ha : CanonicalId 21 ⟨3, 4, 0, 7, 67, 67⟩ := by unfold CanonicalId; decide
  have hb : CanonicalId 21 ⟨3, 4, 5 / 2, 0, 67, 46⟩ := by unfold CanonicalId; decide
  have h := point_set_equality 21 ⟨3, 4, 0, 7, 67, 67⟩ ⟨3, 4, 5 / 2, 0, 67, 46⟩ ha hb
  ⟨ha, hb, h.2.2.1.mpr rfl, h.2.2.2 (h.2.2.1.mpr rfl)⟩

/-! ## Theorems: path extraction and `Plan` -/

theorem walkToStart_ends (tree : List Node) (start : Node) (fuel : Nat) :
    ∀ (current : Node) (walked : List Node),
      walkToStart tree start fuel current = some walked →
      walked.head? = some current ∧
      ∃ z, walked.getLast? = some z ∧ compare_coordinates z start = true := by
  induction fuel with
  | zero =>
    intro current walked h
    unfold walkToStart at h
    split at h
    · rename_i hc
      obtain rfl : [current] = walked := by simpa using h
      exact ⟨rfl, current, rfl, hc⟩
    · exact absurd h (by simp)
  | succ fuel ih =>
    intro current walked h
    unfold walkToStart at h
    split at h
    · rename_i hc
      obtain rfl : [current] = walked := by simpa using h
      exact ⟨rfl, current, rfl, hc⟩
    · split at h
      · exact absurd h (by simp)
      · rename_i parent _
        split at h
        · exact absurd h (by simp)
        · rename_i rest hrest
          obtain rfl : current :: rest = walked := by simpa using h
          obtain ⟨hhead, z, hz, hzc⟩ := ih parent rest hrest
          refine ⟨rfl, z, ?_, hzc⟩
          cases rest with
          | nil => exact absurd hhead (by simp)
          | cons r rs => simpa using hz

theorem CreatePath_ends (tree : List Node) (start goal : Node) (path : List Node)
    (h : CreatePath tree start goal = some path) :
    path.getLast? = some goal ∧
    ∃ z, path.head? = some z ∧ compare_coordinates z start = true := by
  unfold CreatePath at h
  split at h
  · exact absurd h (by simp)
  · rename_i walked hw
    obtain rfl : walked.reverse = path := by simpa using h
    obtain ⟨hhead, z, hz, hzc⟩ := walkToStart_ends tree start tree.length goal walked hw
    refine ⟨?_, z, ?_, hzc⟩
    · rw [List.getLast?_reverse]; exact hhead
    · rw [List.head?_reverse]; exact hz

theorem planLoop_ends (dist : DistFn) (IsAnyObstacleInPath : ObstacleFn)
    (rng : Nat → Nat × Nat) (N : Nat) (obstacles : List Node) (threshold : ℚ)
    (start goal : Node) (path : List Node) (fuel : Nat) :
    ∀ (i : Nat) (tree : List Node),
      planLoop dist IsAnyObstacleInPath rng N obstacles threshold start goal fuel i tree
        = .ok (true, path) →
      ∃ first last, path.head? = some first ∧ path.getLast? = some last ∧
        compare_coordinates first start = true ∧ compare_coordinates last goal = true := by
  induction fuel with
  | zero =>
    intro i tree h
    unfold planLoop at h
    exact absurd h (by simp)
  | succ fuel ih =>
    intro i tree h
    unfold planLoop at h
    simp only at h
    split at h
    · exact ih _ _ h
    · split at h
      · exact ih _ _ h
      · split at h
        · exact ih _ _ h
        · split at h
          · exact ih _ _ h
          · split at h
            · split at h
              · exact absurd h (by simp)
              · rename_i p hp
                obtain rfl : p = path := by
                  injection h with h1
                  exact (Prod.mk.inj h1).2
                obtain ⟨hlast, z, hz, hzc⟩ := CreatePath_ends _ _ _ _ hp
                exact ⟨z, _, hz, hlast, hzc, by simp [compare_coordinates]⟩
            · exact ih _ _ h

/-- C7: whenever `Plan` reports success, the start and goal cells were inside the grid
and free, and the returned sequence is non-empty, begins with a node at the
coordinates of `start` and ends with a node at the coordinates of `goal`. -/
theorem plan_success_endpoints (dist : DistFn) (IsAnyObstacleInPath : ObstacleFn)
    (rng : Nat → Nat × Nat) (self : RRTStar) (start goal : Node) (path : List Node)
    (h : self.Plan dist IsAnyObstacleInPath rng start goal = .ok (true, path)) :
    (cellAt self.grid_ start.x_ start.y_ = some 0 ∧
      cellAt self.grid_ goal.x_ goal.y_ = some 0) ∧
    path ≠ [] ∧
    ∃ first last, path.head? = some first ∧ path.getLast? = some last ∧
      (first.x_ = start.x_ ∧ first.y_ = start.y_) ∧
      (last.x_ = goal.x_ ∧ last.y_ = goal.y_) := by
  unfold RRTStar.Plan at h
  split at h
  · rename_i hpre
    obtain ⟨first, last, hf, hl, hfc, hlc⟩ := planLoop_ends _ _ _ _ _ _ _ _ _ _ _ _ h
    refine ⟨hpre, ?_, first, last, hf, hl, ?_, ?_⟩
    · intro hnil
      rw [hnil] at hf
      exact absurd hf (by simp)
    · exact (compare_coordinates_iff _ _).mp hfc
    · exact (compare_coordinates_iff _ _).mp hlc
  · exact absurd h (by simp)

theorem plan_success_endpoints_witness :
    (RRTStar.construct wallGrid).Plan sampleDist sampleObstacleCheck wallSamples
      (cellNode 5 0 0) (cellNode 5 0 4) = .ok (true, wallPath) ∧
    wallPath ≠ [] ∧
    ∃ first last, wallPath.head? = some first ∧ wallPath.getLast? = some last ∧
      (first.x_ = (cellNode 5 0 0).x_ ∧ first.y_ = (cellNode 5 0 0).y_) ∧
      (last.x_ = (cellNode 5 0 4).x_ ∧ last.y_ = (cellNode 5 0 4).y_) :=
  ⟨plan_wall,
   (plan_success_endpoints sampleDist sampleObstacleCheck wallSamples
      (RRTStar.construct wallGrid) (cellNode 5 0 0) (cellNode 5 0 4) wallPath plan_wall).2⟩

/-! ## Theorems: rewiring -/

theorem RewireEffect.refl (s a : Node) : RewireEffect s a a :=
  ⟨⟨rfl, rfl, rfl⟩, fun h => absurd rfl h, fun _ => le_refl _⟩

theorem RewireEffect.cost_le {s a b : Node} (h : RewireEffect s a b) : b.cost_ ≤ a.cost_ := by
  by_cases hp : b.pid_ = a.pid_
  · exact h.2.2 hp
  · exact le_of_lt (h.2.1 hp).2

theorem RewireEffect.trans {s a b c : Node} (hab : RewireEffect s a b)
    (hbc : RewireEffect s b c) : RewireEffect s a c := by
  have le1 : b.cost_ ≤ a.cost_ := RewireEffect.cost_le hab
  have le2 : c.cost_ ≤ b.cost_ := RewireEffect.cost_le hbc
  obtain ⟨⟨i1, x1, y1⟩, hne1, _⟩ := hab
  obtain ⟨⟨i2, x2, y2⟩, hne2, _⟩ := hbc
  refine ⟨⟨i2.trans i1, x2.trans x1, y2.trans y1⟩, ?_, ?_⟩
  · intro hne
    by_cases hcb : c.pid_ = b.pid_
    · have hba : b.pid_ ≠ a.pid_ := fun h => hne (hcb.trans h)
      exact ⟨hcb.trans (hne1 hba).1, lt_of_le_of_lt le2 (hne1 hba).2⟩
    · exact ⟨(hne2 hcb).1, lt_of_lt_of_le (hne2 hcb).2 le1⟩
  · intro _
    exact le_trans le2 le1

theorem forall2_trans_of {R : Node → Node → Prop}
    (hR : ∀ a b c, R a b → R b c → R a c) :
    ∀ (l1 l2 l3 : List Node), List.Forall₂ R l1 l2 → List.Forall₂ R l2 l3 →
      List.Forall₂ R l1 l3 := by
  intro l1 l2 l3 h12
  induction h12 generalizing l3 with
  | nil => intro h; cases h; exact List.Forall₂.nil
  | cons hab _ ih =>
    intro h
    cases h with
    | cons hbc htl => exact List.Forall₂.cons (hR _ _ _ hab hbc) (ih _ htl)

theorem forall2_map_of {R : Node → Node → Prop} (f : Node → Node) (hf : ∀ a, R a (f a)) :
    ∀ l : List Node, List.Forall₂ R l (l.map f) := by
  intro l
  induction l with
  | nil => exact List.Forall₂.nil
  | cons a l ih => exact List.Forall₂.cons (hf a) ih

theorem forall2_set_of {R : Node → Node → Prop} (hrefl : ∀ a, R a a) :
    ∀ (l : List Node) (k : Nat) (m m' : Node), l[k]? = some m → R m m' →
      List.Forall₂ R l (l.set k m') := by
  intro l
  induction l with
  | nil => intro k m m' h; exact absurd h (by simp)
  | cons a l ih =>
    intro k m m' h hm
    cases k with
    | zero =>
      obtain rfl : a = m := by simpa using h
      exact List.Forall₂.cons hm (List.forall₂_same.mpr (fun x _ => hrefl x))
    | succ k =>
      exact List.Forall₂.cons (hrefl a) (ih k m m' (by simpa using h) hm)

theorem propagateCost_effect (s : Node) (tree : List Node) (m_id : Int) (delta : ℚ)
    (hd : delta ≤ 0) :
    List.Forall₂ (RewireEffect s) tree (propagateCost tree m_id delta) := by
  unfold propagateCost
  apply forall2_map_of
  intro a
  split
  · exact ⟨⟨rfl, rfl, rfl⟩, fun h => absurd rfl h, fun _ => by simpa using hd⟩
  · exact RewireEffect.refl s a

theorem rewireAt_effect (dist : DistFn) (IsAnyObstacleInPath : ObstacleFn)
    (obstacles : List Node) (threshold : ℚ) (new_node : Node) (tree : List Node) (k : Nat) :
    List.Forall₂ (RewireEffect new_node) tree
      (rewireAt dist IsAnyObstacleInPath obstacles threshold new_node tree k) := by
  have hsame : List.Forall₂ (RewireEffect new_node) tree tree :=
    List.forall₂_same.mpr (fun x _ => RewireEffect.refl new_node x)
  unfold rewireAt
  split
  · exact hsame
  · rename_i m hm
    split
    · exact hsame
    · split
      · rename_i hcond
        have hlt : new_node.cost_ + dist new_node m < m.cost_ := hcond.2
        refine forall2_trans_of (R := RewireEffect new_node)
          (fun _ _ _ h1 h2 => RewireEffect.trans h1 h2) _ _ _
          (forall2_set_of (RewireEffect.refl new_node) tree k m _ hm ?_)
          (propagateCost_effect new_node _ _ _ ?_)
        · exact ⟨⟨rfl, rfl, rfl⟩, fun _ => ⟨rfl, hlt⟩, fun _ => le_of_lt hlt⟩
        · linarith
      · exact hsame

theorem foldl_effect (s : Node) (step : List Node → Nat → List Node)
    (hstep : ∀ t k, List.Forall₂ (RewireEffect s) t (step t k)) :
    ∀ (ks : List Nat) (tree : List Node),
      List.Forall₂ (RewireEffect s) tree (ks.foldl step tree) := by
  intro ks
  induction ks with
  | nil => intro tree; exact List.forall₂_same.mpr (fun x _ => RewireEffect.refl s x)
  | cons k ks ih =>
    intro tree
    exact forall2_trans_of (R := RewireEffect s)
      (fun _ _ _ h1 h2 => RewireEffect.trans h1 h2) _ _ _ (hstep tree k)
      (ih (step tree k))

/-- C8: for every tree and every new node, `Rewire` keeps the nodes of the tree in
place, one for one; a node whose `parent_id` it changes is reparented to the new
node and ends with a strictly smaller cost, and a node whose parent it leaves alone
ends with a cost no greater than before. -/
theorem rewire_lowers_cost (dist : DistFn) (IsAnyObstacleInPath : ObstacleFn)
    (obstacles : List Node) (threshold : ℚ) (new_node : Node) (tree : List Node) :
    List.Forall₂ (RewireEffect new_node) tree
      (Rewire dist IsAnyObstacleInPath obstacles threshold new_node tree) := by
  unfold Rewire
  exact foldl_effect new_node _
    (rewireAt_effect dist IsAnyObstacleInPath obstacles threshold new_node) _ _

theorem rewire_detourTree :
    Rewire sampleDist sampleObstacleCheck [] (3 / 2) ⟨1, 1, 707 / 500, 0, 6, 0⟩ detourTree
      = [⟨0, 0, 0, 0, 0, 0⟩, ⟨0, 1, 1, 0, 1, 0⟩, ⟨0, 2, 2, 0, 2, 1⟩,
         ⟨1, 2, 1207 / 500, 0, 7, 6⟩, ⟨2, 3, 957 / 250, 0, 13, 7⟩,
         ⟨1, 1, 707 / 500, 0, 6, 0⟩] := by
  decide!

end PathPlanning
